import Mathlib

/-!
Verification of the Discord voice module (`voice-tool.ts` / the embedded
`discord/voice.ts` source): a shallow embedding in Lean 4 of the pure and
state-manipulating parts of the module, with theorems checking the
natural-language specification against the code.

The embedding covers:
- the noise classifier `isNoiseTranscript` together with the `NOISE_PATTERNS`
  regular expressions, translated pattern by pattern into decidable matchers
  over `List Char`;
- the WAV encoder `pcmToWav` (bytes as `Nat` below 256, little-endian fields
  written with the `Buffer.writeUInt32LE`/`writeUInt16LE` range checks made
  explicit);
- the post-response confidence filter of `transcribeWithWhisper` with
  probabilities as rationals;
- the `VoiceManager` mutable state (players, the module-level voice-connection
  registry, the single shared `listenerOptions` field, `activeListeners`,
  and the per-call speaking-start handlers) as an explicit state type with
  one Lean function per operation;
- the cleanup structure of `processAudio` (try/finally with a swallowed
  unlink error);
- the module-level `voiceManager` singleton accessors.
-/

/-! ## Noise classifier (`isNoiseTranscript`, `NOISE_PATTERNS`) -/

/-- The JavaScript whitespace class `\s` (also the set stripped by
`String.prototype.trim`): tab, line feed, vertical tab, form feed, carriage
return, space, NBSP, Ogham space mark, the U+2000–U+200A range, line and
paragraph separators, narrow NBSP, medium mathematical space, ideographic
space, and the BOM. -/
def isJsWhitespace (c : Char) : Bool :=
  c.toNat = 9 || c.toNat = 10 || c.toNat = 11 || c.toNat = 12 || c.toNat = 13 ||
  c.toNat = 32 || c.toNat = 160 || c.toNat = 5760 ||
  (8192 ≤ c.toNat && c.toNat ≤ 8202) ||
  c.toNat = 8232 || c.toNat = 8233 || c.toNat = 8239 || c.toNat = 8287 ||
  c.toNat = 12288 || c.toNat = 65279

/-- JavaScript `String.prototype.trim`: drop leading and trailing whitespace. -/
def jsTrim (l : List Char) : List Char :=
  ((l.dropWhile isJsWhitespace).reverse.dropWhile isJsWhitespace).reverse

/-- String-level version of `jsTrim`, modelling `text.trim()`. -/
def jsTrimS (s : String) : String :=
  ⟨jsTrim s.data⟩

/-- The character class `[。、！？!?.,\s]` removed by
`trimmed.replace(/[。、！？!?.,\s]/g, "")`. -/
def isPunctSpace (c : Char) : Bool :=
  c = '。' || c = '、' || c = '！' || c = '？' || c = '!' || c = '?' ||
  c = '.' || c = ',' || isJsWhitespace c

/-- Remove all punctuation/whitespace characters, modelling the global
`replace` above. -/
def stripPunct (l : List Char) : List Char :=
  l.filter (fun c => !isPunctSpace c)

/-- JavaScript `String.prototype.length` counts UTF-16 code units: astral
characters count as 2. -/
def utf16Len (l : List Char) : Nat :=
  l.foldl (fun n c => n + (if c.toNat < 65536 then 1 else 2)) 0

/-- The optional trailing `[。、]?` at the end of several patterns. -/
def optPunct (l : List Char) : Bool :=
  l = [] || l = ['。'] || l = ['、']

/-- Matcher for `^c+[。、]?$`: a nonempty run of `c`, an optional `。` or `、`,
then the end of the string. -/
def repPunct (c : Char) (l : List Char) : Bool :=
  match l with
  | [] => false
  | x :: _ => x = c && optPunct (l.dropWhile (fun d => d = c))

/-- Matcher for `^w[。、]?$`: the exact word, an optional `。` or `、`, then
the end of the string. -/
def wordPunct (w l : List Char) : Bool :=
  l = w || l = w ++ ['。'] || l = w ++ ['、']

/-- Prefix test used for the unanchored-at-the-end patterns `^w`. -/
def hasPrefixL : List Char → List Char → Bool
  | [], _ => true
  | _ :: _, [] => false
  | w :: ws, x :: xs => w = x && hasPrefixL ws xs

/-- Characters matched by `.` in a JavaScript regex without the `s` flag:
everything except the line terminators. -/
def isDotChar (c : Char) : Bool :=
  !(c.toNat = 10 || c.toNat = 13 || c.toNat = 8232 || c.toNat = 8233)

/-- Matcher for `.*】` as a prefix of the remaining input. -/
def dotStarClose : List Char → Bool
  | [] => false
  | c :: rest => c = '】' || (isDotChar c && dotStarClose rest)

/-- Matcher for `.*mid.*】` as a prefix of the remaining input. -/
def dotStarMidClose (mid : List Char) : List Char → Bool
  | [] => false
  | c :: rest =>
    (hasPrefixL mid (c :: rest) && dotStarClose (List.drop mid.length (c :: rest))) ||
    (isDotChar c && dotStarMidClose mid rest)

/-- Matcher for `^【.*エンディング.*】`. -/
def endingPattern (l : List Char) : Bool :=
  match l with
  | [] => false
  | c :: rest => c = '【' && dotStarMidClose ("エンディング".data) rest

/-- ASCII letter, the class `[A-Z]` under the `i` flag. -/
def byLetter (c : Char) : Bool :=
  (65 ≤ c.toNat && c.toNat ≤ 90) || (97 ≤ c.toNat && c.toNat ≤ 122)

/-- Matcher for `\s*[A-Z]\.` (under the `i` flag) as a prefix of the
remaining input. -/
def byTail : List Char → Bool
  | [] => false
  | c :: rest =>
    (isJsWhitespace c && byTail rest) ||
    (byLetter c && (match rest with | d :: _ => d = '.' | [] => false))

/-- Matcher for `^by\s+[A-Z]\./i`. -/
def byPattern (l : List Char) : Bool :=
  match l with
  | b :: y :: c :: rest =>
    (b = 'b' || b = 'B') && (y = 'y' || y = 'Y') && isJsWhitespace c && byTail rest
  | _ => false

/-- The `NOISE_PATTERNS` array: each JavaScript regular expression translated
into a decidable matcher, in source order. -/
def NOISE_PATTERNS : List (List Char → Bool) :=
  [repPunct 'ん', repPunct 'あ', repPunct 'え', repPunct 'う',
   wordPunct ("はい".data), wordPunct ("いっ".data),
   hasPrefixL ("ご視聴ありがとうございました".data),
   hasPrefixL ("ご清聴ありがとうございました".data),
   endingPattern, byPattern,
   wordPunct ("またね".data), wordPunct ("どうも".data),
   fun l => l.all isJsWhitespace]

/-- `isNoiseTranscript`: trim the text; if fewer than 3 UTF-16 units remain
after stripping punctuation and whitespace, it is noise; otherwise it is
noise exactly when some `NOISE_PATTERNS` entry matches the trimmed text. -/
def isNoiseTranscript (text : String) : Bool :=
  if utf16Len (stripPunct (jsTrim text.data)) < 3 then true
  else NOISE_PATTERNS.any (fun p => p (jsTrim text.data))

/-! ## WAV encoder (`pcmToWav`) -/

/-- Little-endian bytes of a 32-bit value, as written by
`Buffer.writeUInt32LE`. -/
def u32le (v : Nat) : List Nat :=
  [v % 256, v / 256 % 256, v / 65536 % 256, v / 16777216 % 256]

/-- Little-endian bytes of a 16-bit value, as written by
`Buffer.writeUInt16LE`. -/
def u16le (v : Nat) : List Nat :=
  [v % 256, v / 256 % 256]

/-- The range and integrality checks performed by the `Buffer` write calls in
`pcmToWav`: Node throws `ERR_OUT_OF_RANGE` when a value does not fit its
field or is not an integer (the byte rate and block align are computed with
`/ 8`, which is float division in JavaScript). -/
abbrev wavWritesOk (dataSize sampleRate channels bitsPerSample : Nat) : Prop :=
  36 + dataSize < 4294967296 ∧
  channels < 65536 ∧
  sampleRate < 4294967296 ∧
  8 ∣ sampleRate * channels * bitsPerSample ∧
  sampleRate * channels * bitsPerSample / 8 < 4294967296 ∧
  8 ∣ channels * bitsPerSample ∧
  channels * bitsPerSample / 8 < 65536 ∧
  bitsPerSample < 65536 ∧
  dataSize < 4294967296

/-- The 44-byte WAV header laid out by `pcmToWav`: RIFF tag, file size,
WAVE tag, `fmt ` chunk (size 16, PCM format 1, channels, sample rate, byte
rate, block align, bits per sample), then the `data` tag and data size. -/
def wavHeader (dataSize sampleRate channels bitsPerSample : Nat) : List Nat :=
  [82, 73, 70, 70] ++ u32le (44 + dataSize - 8) ++
  [87, 65, 86, 69] ++
  [102, 109, 116, 32] ++ u32le 16 ++ u16le 1 ++ u16le channels ++
  u32le sampleRate ++ u32le (sampleRate * channels * bitsPerSample / 8) ++
  u16le (channels * bitsPerSample / 8) ++ u16le bitsPerSample ++
  [100, 97, 116, 97] ++ u32le dataSize

/-- `pcmToWav`: the 44-byte header followed by the raw PCM bytes; `none`
models the write throwing when a field value is out of range. -/
def pcmToWav (pcm : List Nat) (sampleRate channels bitsPerSample : Nat) :
    Option (List Nat) :=
  if wavWritesOk pcm.length sampleRate channels bitsPerSample then
    some (wavHeader pcm.length sampleRate channels bitsPerSample ++ pcm)
  else none

/-- Read back a little-endian 32-bit field at a byte offset. -/
def readU32LE (l : List Nat) (i : Nat) : Nat :=
  l.getD i 0 + 256 * l.getD (i + 1) 0 + 65536 * l.getD (i + 2) 0 +
  16777216 * l.getD (i + 3) 0

/-- Read back a little-endian 16-bit field at a byte offset. -/
def readU16LE (l : List Nat) (i : Nat) : Nat :=
  l.getD i 0 + 256 * l.getD (i + 1) 0

/-! ## Whisper transcription client: the post-response confidence filter -/

/-- One entry of the verbose Whisper response's `segments` array. The
per-segment no-speech probability is optional (`seg.no_speech_prob ?? 0`),
modelled as a rational. -/
structure WhisperSegment where
  text : String
  no_speech_prob : Option ℚ
deriving DecidableEq, Repr

/-- The parsed `verbose_json` Whisper response: top-level `text` and the
optional `segments` array. -/
structure WhisperVerboseResponse where
  text : String
  segments : Option (List WhisperSegment)
deriving DecidableEq, Repr

/-- Mean of `no_speech_prob` over the segments, computed exactly as
`segments.reduce((sum, seg) => sum + (seg.no_speech_prob ?? 0), 0) /
segments.length`. -/
def meanNoSpeechProb (segs : List WhisperSegment) : ℚ :=
  (segs.foldl (fun acc seg => acc + seg.no_speech_prob.getD 0) 0) / (segs.length : ℚ)

/-- The result-filtering tail of `transcribeWithWhisper`, applied to the
parsed response: when the `segments` array is present and nonempty and the
mean no-speech probability exceeds 0.5, the transcript is discarded
(`null`); otherwise the top-level `text` is returned. -/
def transcribeWithWhisper (r : WhisperVerboseResponse) : Option String :=
  match r.segments with
  | some segs =>
    if 0 < segs.length then
      if (1 : ℚ) / 2 < meanNoSpeechProb segs then none
      else some r.text
    else some r.text
  | none => some r.text

/-- The delivery step of `processAudio`: trim the (possibly `null`)
transcript; when it is a nonempty string and the noise classifier accepts
it, the trimmed text is handed to `onTranscription`; otherwise nothing is
delivered. -/
def deliveredTranscript : Option String → Option String
  | none => none
  | some t =>
    if !(jsTrimS t).data.isEmpty && !isNoiseTranscript (jsTrimS t) then
      some (jsTrimS t)
    else none

/-! ## VoiceManager state and operations

The mutable state touched by the `VoiceManager` methods: the `players` map
(modelled as the list of guild ids holding an `AudioPlayer`), the
module-level voice-connection registry of `@discordjs/voice` (the list of
guild ids with a live, non-destroyed connection), the single shared
`listenerOptions` field, the `activeListeners` map from guild id to the set
of user ids currently being captured, and the speaking-start handlers
registered on connection receivers by `startListening` (each holding the
silence threshold and minimum speech duration resolved at registration
time). Maps are association lists in insertion order; sets are
duplicate-free lists. -/

/-- The options passed to `startListening`. The callback function is
identified by a numeric id so that distinct callbacks can be compared. -/
structure ListenerOpts where
  callbackId : Nat
  language : Option String
  openaiApiKey : Option String
  silenceThreshold : Option Nat
  minSpeechDuration : Option Nat
deriving DecidableEq, Repr

/-- Lookup in an association list keyed by guild id (`Map.get`). -/
def lookupKey {α : Type} : List (String × α) → String → Option α
  | [], _ => none
  | p :: rest, g => if p.1 = g then some p.2 else lookupKey rest g

/-- `Map.set`: replace the value at an existing key, or append a new entry. -/
def setKey {α : Type} : List (String × α) → String → α → List (String × α)
  | [], g, v => [(g, v)]
  | p :: rest, g, v => if p.1 = g then (g, v) :: rest else p :: setKey rest g v

/-- `Map.delete`: remove the entry for a key. -/
def deleteKey {α : Type} (m : List (String × α)) (g : String) : List (String × α) :=
  m.filter (fun p => !(p.1 == g))

/-- The state of the `VoiceManager` instance together with the module-level
connection registry. -/
structure VMState where
  players : List String
  connections : List String
  listenerOptions : Option ListenerOpts
  activeListeners : List (String × List String)
  handlers : List (String × Nat × Nat)
deriving DecidableEq, Repr

/-- The state before any voice operation. -/
def initState : VMState :=
  { players := [], connections := [], listenerOptions := none,
    activeListeners := [], handlers := [] }

/-- A successful `join(guildId, channelId)`: rejoin when a live connection
already exists (registry unchanged), otherwise register the new
connection. -/
def joinStep (s : VMState) (g : String) : VMState :=
  if g ∈ s.connections then s
  else { s with connections := s.connections ++ [g] }

/-- `leave(guildId)`: stop and drop the guild's player if present, and
destroy the connection (removing it from the registry). The listener
fields are not touched. -/
def leaveStep (s : VMState) (g : String) : VMState :=
  { s with players := s.players.filter (fun x => !(x == g)),
           connections := s.connections.filter (fun x => !(x == g)),
           handlers := s.handlers.filter (fun p => !(p.1 == g)) }

/-- `isConnected(guildId)`: a live connection exists in the registry. -/
def isConnected (s : VMState) (g : String) : Bool :=
  decide (g ∈ s.connections)

/-- `isListening(guildId)`:
`this.listenerOptions !== undefined && this.activeListeners.has(guildId)`. -/
def isListening (s : VMState) (g : String) : Bool :=
  s.listenerOptions.isSome && (lookupKey s.activeListeners g).isSome

/-- `startListening(guildId, options)`: throws (state unchanged, second
component `false`) when the guild has no connection; otherwise overwrites
the shared `listenerOptions` field and registers a speaking-start handler
on the connection's receiver, capturing the resolved silence threshold
(default 1500) and minimum speech duration (default 500). -/
def startListeningStep (s : VMState) (g : String) (o : ListenerOpts) : VMState × Bool :=
  if g ∈ s.connections then
    ({ s with
         listenerOptions := some o,
         handlers := s.handlers ++
           [(g, o.silenceThreshold.getD 1500, o.minSpeechDuration.getD 500)] }, true)
  else (s, false)

/-- `stopListening(guildId)`: clear and delete the guild's active-listener
set. -/
def stopListeningStep (s : VMState) (g : String) : VMState :=
  { s with activeListeners := deleteKey s.activeListeners g }

/-- `handleSpeakingStart`: when the user is already in the guild's
active-listener set, return immediately (no subscription, no buffer —
second component `false`); otherwise record the user and subscribe to the
user's opus stream (second component `true`). A missing guild entry is
created before the membership test, so on the early-return path the state
is untouched. -/
def handleSpeakingStart (s : VMState) (g u : String) : VMState × Bool :=
  match lookupKey s.activeListeners g with
  | some gl =>
    if u ∈ gl then (s, false)
    else ({ s with activeListeners := setKey s.activeListeners g (gl ++ [u]) }, true)
  | none =>
    ({ s with activeListeners := setKey s.activeListeners g [u] }, true)

/-- The `guildListeners?.delete(userId)` step of the decoder `end` handler. -/
def removeUser (s : VMState) (g u : String) : VMState :=
  match lookupKey s.activeListeners g with
  | none => s
  | some gl =>
    { s with activeListeners := setKey s.activeListeners g (gl.filter (fun x => !(x == u))) }

/-- The decoder `end` handler: free the user's capture slot, then either
discard the utterance (duration below the minimum speech duration or zero
chunks — second component `false`, `processAudio` not called) or dispatch
it to `processAudio` (second component `true`). -/
def decoderEnd (s : VMState) (g u : String) (durationMs : Nat)
    (chunks : List (List Nat)) (minSpeechDuration : Nat) : VMState × Bool :=
  let s1 := removeUser s g u
  if durationMs < minSpeechDuration ∨ chunks = [] then (s1, false)
  else (s1, true)

/-- The options `processAudio` uses for an utterance: it reads the single
shared `this.listenerOptions` field; the guild the utterance came from does
not select the options. -/
def processAudioOpts (s : VMState) (_guildId : String) : Option ListenerOpts :=
  s.listenerOptions

/-- Errors thrown by `play`. -/
inductive PlayError where
  | notConnected
  | fileNotFound
deriving DecidableEq, Repr

/-- `play(guildId, filePath, volume?)`: throws `notConnected` when the
guild has no live connection, then `fileNotFound` when the resolved path
does not exist — in both cases before any player is created or stored, so
the state is returned unchanged. On success a player is created lazily for
the guild and reused afterwards. -/
def playStep (s : VMState) (g : String) (fileExists : Bool) :
    VMState × Option PlayError :=
  if g ∈ s.connections then
    if fileExists then
      if g ∈ s.players then (s, none)
      else ({ s with players := s.players ++ [g] }, none)
    else (s, some PlayError.fileNotFound)
  else (s, some PlayError.notConnected)

/-- States reachable from `initState` through the voice operations: joins,
leaves, listening starts and stops, receiver speaking-start events (which
require a live connection carrying a registered handler), decoder-end
events, and plays. -/
inductive Reachable : VMState → Prop where
  | init : Reachable initState
  | join {s : VMState} (g : String) : Reachable s → Reachable (joinStep s g)
  | leave {s : VMState} (g : String) : Reachable s → Reachable (leaveStep s g)
  | startListen {s : VMState} (g : String) (o : ListenerOpts) :
      Reachable s → Reachable (startListeningStep s g o).1
  | stopListen {s : VMState} (g : String) : Reachable s → Reachable (stopListeningStep s g)
  | speak {s : VMState} (g u : String) (t1 t2 : Nat) :
      Reachable s → isConnected s g = true → (g, t1, t2) ∈ s.handlers →
      Reachable (handleSpeakingStart s g u).1
  | finalize {s : VMState} (g u : String) (d : Nat) (c : List (List Nat)) (t1 t2 : Nat) :
      Reachable s → (g, t1, t2) ∈ s.handlers →
      Reachable (decoderEnd s g u d c t2).1
  | playEv {s : VMState} (g : String) (fe : Bool) :
      Reachable s → Reachable (playStep s g fe).1

/-! ## processAudio cleanup structure -/

/-- The body of the `try` block in `processAudio` after the WAV file is
written: obtain the transcript (or propagate the thrown error), then
deliver the trimmed transcript when it is nonempty and passes the noise
classifier. -/
def processAudioBody (tr : Except String (Option String)) :
    Except String (Option String) :=
  match tr with
  | .error e => .error e
  | .ok t => .ok (deliveredTranscript t)

/-- The `finally` block: `unlink` is attempted once inside its own
`try`/`catch`, and a failing unlink is swallowed. Returns the number of
unlink attempts and the outcome the `finally` block contributes. -/
def unlinkAttempt (unlinkResult : Except String Unit) : Nat × Except String Unit :=
  (1, match unlinkResult with
      | .ok _ => .ok ()
      | .error _ => .ok ())

/-- `try { body } finally { try { unlink } catch {} }`: the cleanup runs on
both outcomes of the body; since its error is swallowed, the body's result
(success or thrown error) is what propagates. Returns the overall result
and the number of unlink attempts. -/
def processAudioFinalize (tr : Except String (Option String))
    (unlinkResult : Except String Unit) :
    Except String (Option String) × Nat :=
  let body := processAudioBody tr
  let (attempts, cleanup) := unlinkAttempt unlinkResult
  (match cleanup with
   | .ok _ => body
   | .error e => .error e, attempts)

/-! ## Module-level VoiceManager singleton -/

/-- `getVoiceManager(token?)`: return the existing instance when there is
one (the token is not consulted); otherwise return `undefined` without a
token, or construct a fresh instance with one. The manager is identified by
a numeric id; `fresh` is the id a new construction would produce. Returns
the result and the new module-level state. -/
def getVoiceManagerFn (state : Option Nat) (fresh : Nat) (token : Option String) :
    Option Nat × Option Nat :=
  match state with
  | some m => (some m, some m)
  | none =>
    match token with
    | none => (none, none)
    | some _ => (some fresh, some fresh)

/-- `initVoiceManager(token)`: return the existing instance when there is
one (ignoring the token); otherwise construct and store a fresh one. -/
def initVoiceManagerFn (state : Option Nat) (fresh : Nat) (_token : String) :
    Nat × Option Nat :=
  match state with
  | some m => (m, some m)
  | none => (fresh, some fresh)

/-! ## Concrete data for witnesses and counterexamples -/

/-- Listener options of a first `startListening` call (Japanese hint). -/
def optsJa : ListenerOpts :=
  { callbackId := 1, language := some "ja", openaiApiKey := some "key-a",
    silenceThreshold := none, minSpeechDuration := none }

/-- Listener options of a second `startListening` call (English hint). -/
def optsEn : ListenerOpts :=
  { callbackId := 2, language := some "en", openaiApiKey := some "key-b",
    silenceThreshold := none, minSpeechDuration := none }

/-- A reachable state: join guild `g`, start listening, observe a
speaking-start for user `u`, then leave the guild. -/
def vmBad : VMState :=
  leaveStep (handleSpeakingStart
    (startListeningStep (joinStep initState "g") "g" optsJa).1 "g" "u").1 "g"

/-- The bytes `pcmToWav` produces for the 4-byte PCM input `[7, 8, 9, 10]`
at 48000 Hz, 2 channels, 16 bits. -/
def wavSample : List Nat :=
  [82, 73, 70, 70, 40, 0, 0, 0, 87, 65, 86, 69, 102, 109, 116, 32,
   16, 0, 0, 0, 1, 0, 2, 0, 128, 187, 0, 0, 0, 238, 2, 0, 4, 0, 16, 0,
   100, 97, 116, 97, 4, 0, 0, 0, 7, 8, 9, 10]

/-! ## Helper lemmas -/

/-- Looking up a key right after `setKey` returns the stored value. -/
theorem lookup_setKey {α : Type} (m : List (String × α)) (g : String) (v : α) :
    lookupKey (setKey m g v) g = some v := by
  induction m with
  | nil => simp [setKey, lookupKey]
  | cons p rest ih =>
    by_cases hp : p.1 = g
    · simp [setKey, lookupKey, hp]
    · simp [setKey, lookupKey, hp, ih]

/-- Looking up a key right after `deleteKey` finds nothing. -/
theorem lookup_deleteKey {α : Type} (m : List (String × α)) (g : String) :
    lookupKey (deleteKey m g) g = none := by
  induction m with
  | nil => rfl
  | cons p rest ih =>
    by_cases hp : p.1 = g
    · simpa [deleteKey, List.filter_cons, hp] using ih
    · simpa [deleteKey, List.filter_cons, hp, lookupKey] using ih

/-- A string whose character list is empty is classified as noise (its
post-strip length is 0). -/
theorem isNoiseTranscript_of_nil (s : String) (h : s.data = []) :
    isNoiseTranscript s = true := by
  unfold isNoiseTranscript
  rw [h]
  decide

/-! ## Theorems for the claims -/

/-- C1: a second speaking-start signal for a user already present in the
guild's active-listener set is a no-op: the state is unchanged and no new
subscription or capture buffer is created. -/
theorem handleSpeakingStart_dedup (s : VMState) (g u : String) (gl : List String)
    (h : lookupKey s.activeListeners g = some gl) (hm : u ∈ gl) :
    handleSpeakingStart s g u = (s, false) := by
  simp [handleSpeakingStart, h, hm]

/-- C1 witness: concrete duplicate speaking-start. -/
theorem handleSpeakingStart_dedup_witness :
    handleSpeakingStart { initState with activeListeners := [("g", ["u"])] } "g" "u" =
      ({ initState with activeListeners := [("g", ["u"])] }, false) :=
  handleSpeakingStart_dedup { initState with activeListeners := [("g", ["u"])] }
    "g" "u" ["u"] (by decide) (by decide)

/-- C2: whenever `pcmToWav` succeeds, the output is a 44-byte header
followed by the raw PCM bytes, the `data` chunk size field at offset 40
equals the PCM byte length, and the sample rate (offset 24), channel count
(offset 22) and bit depth (offset 34) decode back to the inputs exactly. -/
theorem pcmToWav_header_roundtrip (pcm : List Nat) (sr ch bits : Nat) (w : List Nat)
    (h : pcmToWav pcm sr ch bits = some w) :
    w.length = 44 + pcm.length ∧
    w.drop 44 = pcm ∧
    readU32LE w 40 = pcm.length ∧
    readU32LE w 24 = sr ∧
    readU16LE w 22 = ch ∧
    readU16LE w 34 = bits := by
  by_cases hc : wavWritesOk pcm.length sr ch bits
  case neg =>
    rw [pcmToWav, if_neg hc] at h
    exact Option.noConfusion h
  case pos =>
    rw [pcmToWav, if_pos hc] at h
    obtain ⟨hfs, hch, hsr, hdvd, hbr, hdvd2, hba, hbits, hds⟩ := hc
    have hw : w = wavHeader pcm.length sr ch bits ++ pcm := (Option.some.inj h).symm
    subst hw
    refine ⟨?_, ?_, ?_, ?_, ?_, ?_⟩
    · simp [wavHeader, u32le, u16le]
      omega
    · simp [wavHeader, u32le, u16le]
    · simp [readU32LE, wavHeader, u32le, u16le]
      omega
    · simp [readU32LE, wavHeader, u32le, u16le]
      omega
    · simp [readU16LE, wavHeader, u32le, u16le]
      omega
    · simp [readU16LE, wavHeader, u32le, u16le]
      omega

/-- C2 witness: a concrete encode at 48000 Hz, 2 channels, 16 bits. -/
theorem pcmToWav_header_roundtrip_witness :
    pcmToWav [7, 8, 9, 10] 48000 2 16 = some wavSample ∧
    wavSample.length = 44 + 4 ∧ wavSample.drop 44 = [7, 8, 9, 10] ∧
    readU32LE wavSample 40 = 4 ∧ readU32LE wavSample 24 = 48000 ∧
    readU16LE wavSample 22 = 2 ∧ readU16LE wavSample 34 = 16 := by
  have h := pcmToWav_header_roundtrip [7, 8, 9, 10] 48000 2 16 wavSample (by decide)
  exact ⟨by decide, h.1, h.2.1, h.2.2.1, h.2.2.2.1, h.2.2.2.2.1, h.2.2.2.2.2⟩

/-- C3: for a verbose Whisper response with a nonempty segment list, a mean
no-speech probability above 0.5 makes the client return `null` and nothing
is delivered to the callback; otherwise the transcript text is returned
and, when the noise classifier accepts it, the trimmed text is delivered. -/
theorem transcribeWithWhisper_confidence (r : WhisperVerboseResponse)
    (segs : List WhisperSegment) (hs : r.segments = some segs) (hne : segs ≠ []) :
    ((1 : ℚ) / 2 < meanNoSpeechProb segs →
      transcribeWithWhisper r = none ∧
      deliveredTranscript (transcribeWithWhisper r) = none) ∧
    (meanNoSpeechProb segs ≤ (1 : ℚ) / 2 →
      transcribeWithWhisper r = some r.text ∧
      (isNoiseTranscript (jsTrimS r.text) = false →
        deliveredTranscript (transcribeWithWhisper r) = some (jsTrimS r.text))) := by
  have hlen : 0 < segs.length := List.length_pos.mpr hne
  constructor
  · intro hgt
    have hgt' : (2⁻¹ : ℚ) < meanNoSpeechProb segs := by rwa [one_div] at hgt
    have ht : transcribeWithWhisper r = none := by
      simp [transcribeWithWhisper, hs, hlen, hgt']
    exact ⟨ht, by rw [ht]; rfl⟩
  · intro hle
    have hle' : ¬ ((2⁻¹ : ℚ) < meanNoSpeechProb segs) := by
      rw [← one_div]
      exact not_lt.mpr hle
    have ht : transcribeWithWhisper r = some r.text := by
      simp [transcribeWithWhisper, hs, hlen, hle']
    refine ⟨ht, fun hnoise => ?_⟩
    have hne2 : ((jsTrimS r.text).data.isEmpty) = false := by
      cases he : (jsTrimS r.text).data with
      | nil =>
        have hn := isNoiseTranscript_of_nil (jsTrimS r.text) he
        rw [hnoise] at hn
        exact Bool.noConfusion hn
      | cons x xs => simp [he]
    rw [ht]
    simp [deliveredTranscript, hnoise, hne2]

/-- C3 witness: mean no-speech probability 0.6 is suppressed; 0.2 is
delivered with trimmed text. -/
theorem transcribeWithWhisper_confidence_witness :
    transcribeWithWhisper ⟨"雑音", some [⟨"", some ((3 : ℚ) / 5)⟩]⟩ = none ∧
    deliveredTranscript
      (transcribeWithWhisper ⟨"これはテストです。", some [⟨"", some ((1 : ℚ) / 5)⟩]⟩) =
      some (jsTrimS "これはテストです。") := by
  constructor
  · exact ((transcribeWithWhisper_confidence _ _ rfl (by simp)).1
      (by norm_num [meanNoSpeechProb, List.foldl])).1
  · exact ((transcribeWithWhisper_confidence _ _ rfl (by simp)).2
      (by norm_num [meanNoSpeechProb, List.foldl])).2 (by decide)

/-- C4: `isNoiseTranscript` returns true for every input with fewer than 3
UTF-16 units after trimming and stripping punctuation, and for each listed
filler phrase verbatim; it returns false for an ordinary multi-word
sentence matching no pattern. -/
theorem isNoiseTranscript_spec :
    (∀ t : String, utf16Len (stripPunct (jsTrim t.data)) < 3 →
      isNoiseTranscript t = true) ∧
    isNoiseTranscript "はい。" = true ∧
    isNoiseTranscript "んんん。" = true ∧
    isNoiseTranscript "あああ、" = true ∧
    isNoiseTranscript "えええ。" = true ∧
    isNoiseTranscript "ううう。" = true ∧
    isNoiseTranscript "いっ。" = true ∧
    isNoiseTranscript "ご視聴ありがとうございました" = true ∧
    isNoiseTranscript "ご清聴ありがとうございました" = true ∧
    isNoiseTranscript "【エンディング】" = true ∧
    isNoiseTranscript "by A. Nonymous" = true ∧
    isNoiseTranscript "またね。" = true ∧
    isNoiseTranscript "どうも。" = true ∧
    isNoiseTranscript "これはテストです。" = false :=
  ⟨fun t h => by simp [isNoiseTranscript, h], by decide⟩

/-- C4 witness: a concrete short input through the length branch. -/
theorem isNoiseTranscript_spec_witness : isNoiseTranscript "ん" = true :=
  isNoiseTranscript_spec.1 "ん" (by decide)

/-- C5: a finalized capture whose duration is below the minimum speech
duration, or with zero chunks, is discarded silently: `processAudio` is not
invoked (so no WAV file and no transcription) and the user's capture slot
is freed. -/
theorem decoderEnd_discards_short (s : VMState) (g u : String) (d : Nat)
    (c : List (List Nat)) (m : Nat) (h : d < m ∨ c = []) :
    decoderEnd s g u d c m = (removeUser s g u, false) ∧
    u ∉ (lookupKey (removeUser s g u).activeListeners g).getD [] := by
  constructor
  · unfold decoderEnd
    rw [if_pos h]
  · cases hl : lookupKey s.activeListeners g with
    | none => simp [removeUser, hl]
    | some gl => simp [removeUser, hl, lookup_setKey, List.mem_filter]

/-- C5 witness: a 200 ms capture against a 500 ms floor. -/
theorem decoderEnd_discards_short_witness :
    decoderEnd { initState with activeListeners := [("g", ["u"])] } "g" "u" 200
        [[1, 2]] 500 =
      (removeUser { initState with activeListeners := [("g", ["u"])] } "g" "u", false) ∧
    "u" ∉ (lookupKey (removeUser { initState with activeListeners := [("g", ["u"])] }
        "g" "u").activeListeners "g").getD [] :=
  decoderEnd_discards_short { initState with activeListeners := [("g", ["u"])] }
    "g" "u" 200 [[1, 2]] 500 (Or.inl (by decide))

/-- C6: `play` fails with `notConnected` when the guild has no connection
and with `fileNotFound` when the file does not exist (connection present);
in both failure cases the playback state is returned unchanged. -/
theorem playStep_failures (s : VMState) (g : String) (fe : Bool)
    (h : g ∉ s.connections ∨ fe = false) :
    (playStep s g fe).1 = s ∧
    (playStep s g fe).2 =
      some (if g ∈ s.connections then PlayError.fileNotFound
            else PlayError.notConnected) := by
  rcases h with h | h
  · simp [playStep, h]
  · subst h
    by_cases hc : g ∈ s.connections
    · simp [playStep, hc]
    · simp [playStep, hc]

/-- C6 witness: `play` on a guild with no connection. -/
theorem playStep_failures_witness :
    (playStep initState "g" true).1 = initState ∧
    (playStep initState "g" true).2 =
      some (if "g" ∈ initState.connections then PlayError.fileNotFound
            else PlayError.notConnected) :=
  playStep_failures initState "g" true (Or.inl (by decide))

/-- C7 (amended): `leave` destroys the connection but does not clear the
listening state — `isListening` is unchanged by `leave`, so a guild can
report listening while disconnected; only `stopListening` makes
`isListening` false. -/
theorem leaveStep_listening (s : VMState) (g : String) :
    isConnected (leaveStep s g) g = false ∧
    isListening (leaveStep s g) g = isListening s g ∧
    isListening (stopListeningStep s g) g = false := by
  refine ⟨?_, rfl, ?_⟩
  · simp [isConnected, leaveStep, List.mem_filter]
  · simp [isListening, stopListeningStep, lookup_deleteKey]

/-- C7 (counterexample): a reachable state — join, start listening, one
speaking-start, then leave — in which `isListening` is true while
`isConnected` is false, refuting the claimed invariant. -/
theorem listening_without_connection_reachable :
    Reachable vmBad ∧ isListening vmBad "g" = true ∧
    isConnected vmBad "g" = false := by
  refine ⟨?_, by decide, by decide⟩
  exact Reachable.leave "g"
    (Reachable.speak "g" "u" 1500 500
      (Reachable.startListen "g" optsJa (Reachable.join "g" Reachable.init))
      (by decide) (by decide))

/-- C8 (amended): a second `startListening` on another guild overwrites the
single shared `listenerOptions` field, so utterances from the first guild
are thereafter processed with the second call's callback, language and API
key; only the silence and minimum-duration thresholds of the first call
survive, captured in the first guild's speaking-start handler. -/
theorem startListening_shared_options (s : VMState) (g1 g2 : String)
    (o1 o2 : ListenerOpts) (h1 : g1 ∈ s.connections) (h2 : g2 ∈ s.connections) :
    (startListeningStep (startListeningStep s g1 o1).1 g2 o2).1.listenerOptions =
      some o2 ∧
    processAudioOpts (startListeningStep (startListeningStep s g1 o1).1 g2 o2).1 g1 =
      some o2 ∧
    (g1, o1.silenceThreshold.getD 1500, o1.minSpeechDuration.getD 500) ∈
      (startListeningStep (startListeningStep s g1 o1).1 g2 o2).1.handlers := by
  simp [startListeningStep, h1, h2, processAudioOpts]

/-- C8 witness: two guilds with connections, two listening starts. -/
theorem startListening_shared_options_witness :
    (startListeningStep (startListeningStep (joinStep (joinStep initState "g1") "g2")
        "g1" optsJa).1 "g2" optsEn).1.listenerOptions = some optsEn ∧
    processAudioOpts (startListeningStep (startListeningStep
        (joinStep (joinStep initState "g1") "g2") "g1" optsJa).1 "g2" optsEn).1 "g1" =
      some optsEn ∧
    ("g1", optsJa.silenceThreshold.getD 1500, optsJa.minSpeechDuration.getD 500) ∈
      (startListeningStep (startListeningStep (joinStep (joinStep initState "g1") "g2")
        "g1" optsJa).1 "g2" optsEn).1.handlers :=
  startListening_shared_options (joinStep (joinStep initState "g1") "g2") "g1" "g2"
    optsJa optsEn (by decide) (by decide)

/-- C8 (counterexample): after `startListening("g1", ja-options)` then
`startListening("g2", en-options)`, an utterance finalized in guild `g1`
is processed with the en-options, not the options `g1` was started with —
there is no per-guild storage of callback, language or key. -/
theorem listener_options_not_per_guild :
    processAudioOpts
      (startListeningStep
        (startListeningStep (joinStep (joinStep initState "g1") "g2") "g1" optsJa).1
        "g2" optsEn).1 "g1" = some optsEn ∧
    optsEn.language ≠ optsJa.language ∧ optsEn ≠ optsJa := by
  decide

/-- C9: for every utterance reaching audio processing, the temp-file unlink
is attempted exactly once, the outcome is independent of whether the unlink
fails, and the body's own result (delivery or thrown transcription error)
is what propagates. -/
theorem processAudioFinalize_cleanup (tr : Except String (Option String))
    (u u' : Except String Unit) :
    (processAudioFinalize tr u).2 = 1 ∧
    (processAudioFinalize tr u).1 = processAudioBody tr ∧
    processAudioFinalize tr u = processAudioFinalize tr u' := by
  cases u <;> cases u' <;> simp [processAudioFinalize, unlinkAttempt]

/-- C10: once a `VoiceManager` exists, `getVoiceManager` and
`initVoiceManager` return it unchanged for any token; `getVoiceManager`
returns `undefined` exactly when no manager exists and no token is
supplied. -/
theorem voiceManager_singleton (state : Option Nat) (m fresh : Nat)
    (t : Option String) (tok : String) :
    getVoiceManagerFn (some m) fresh t = (some m, some m) ∧
    initVoiceManagerFn (some m) fresh tok = (m, some m) ∧
    ((getVoiceManagerFn state fresh t).1 = none ↔ state = none ∧ t = none) := by
  refine ⟨rfl, rfl, ?_⟩
  cases state <;> cases t <;> simp [getVoiceManagerFn]
